import Mathlib

/-!
Verification of the real-time connection, subscription, and fan-out layer of
the real-chat repository.

The definitions below are a shallow embedding of the TypeScript sources:

* `src/backend/src/websocket/manager.ts` (class `WebSocketManager`)
* `src/backend/src/redis/socketRouter.ts` (classes `SocketRouter`, `PresenceManager`)
* `src/unnamed/part_000` (the Gateway: websocket route, `handleWebSocketMessage`,
  `subscribeToPresenceChanges`)

JavaScript `Map` objects are embedded as insertion-ordered association lists,
JavaScript `Set` objects as duplicate-free lists with insertion-order `add` and
`delete`.  `Date.now()` is passed in explicitly as a `now : Nat` argument.
Socket handles are embedded as `Option SocketHandle` where `sendOk` records
whether a physical `socket.send` call succeeds or throws.  All observable side
effects (socket writes, pub/sub publications, presence events) are returned as
explicit lists.
-/

/-! ## Association list operations (embedding of JavaScript Map semantics) -/

/-- Lookup in an insertion-ordered association list (first match), embedding
`Map.prototype.get`. -/
def alGet {β : Type} (m : List (String × β)) (k : String) : Option β :=
  match m with
  | [] => none
  | (k1, v) :: rest => if k1 = k then some v else alGet rest k

/-- Update or insert, embedding `Map.prototype.set`: an existing key keeps its
position and is overwritten; a fresh key is appended. -/
def alSet {β : Type} (m : List (String × β)) (k : String) (v : β) :
    List (String × β) :=
  if (alGet m k).isSome then
    m.map (fun p => if p.1 = k then (k, v) else p)
  else
    m ++ [(k, v)]

/-- Removal, embedding `Map.prototype.delete`. -/
def alDelete {β : Type} (m : List (String × β)) (k : String) :
    List (String × β) :=
  m.filter (fun p => p.1 ≠ k)

/-- Membership test on the key list, embedding `Map.prototype.has`. -/
def alKeys {β : Type} (m : List (String × β)) : List String :=
  m.map Prod.fst

/-! ## Set operations (embedding of JavaScript Set semantics) -/

/-- Embedding of `Set.prototype.add`: idempotent, appends fresh elements. -/
def setAdd (s : List String) (x : String) : List String :=
  if x ∈ s then s else s ++ [x]

/-- Embedding of `Set.prototype.delete`. -/
def setDelete (s : List String) (x : String) : List String :=
  s.filter (fun y => y ≠ x)

/-! ## Data model (from `src/backend/src/websocket/types.ts`) -/

/-- Identity data bound to a websocket connection (`WebSocketData`). -/
structure WebSocketData where
  userId : String
  username : String
  socketId : String
  serverId : String
  connectedAt : Nat
deriving DecidableEq, Repr

/-- The underlying transport handle; `sendOk` records whether a physical
`send` call succeeds (`true`) or throws (`false`). -/
structure SocketHandle where
  sendOk : Bool
deriving DecidableEq, Repr

/-- A registered connection (`ConnectedSocket`): identity data, subscription
set of conversation ids, and the optional socket handle. -/
structure ConnectedSocket where
  data : WebSocketData
  subscriptions : List String
  socket : Option SocketHandle
deriving DecidableEq, Repr

/-- Payloads of outbound websocket messages.  The TypeScript code uses
`any`-typed payloads; the shapes actually constructed by the embedded code are
enumerated here, with opaque application data kept as `String`. -/
inductive WSPayload where
  | newMessageP (conversationId : String) (message : String)
  | newReactionP (conversationId : String) (messageId : String) (reaction : String)
  | presenceP (userId : String) (status : String) (timestamp : Nat)
  | typingP (conversationId : String) (userId : String) (isTyping : Bool)
  | errorP (code : String) (message : String)
  | emptyP
deriving DecidableEq, Repr

/-- An outbound websocket message (`WSMessage`). -/
structure WSMessage where
  type_ : String
  payload : WSPayload
  timestamp : Nat
deriving DecidableEq, Repr

/-- State of the `WebSocketManager` singleton: the connection map and the
server id generated at construction time. -/
structure WSManagerState where
  connections : List (String × ConnectedSocket)
  serverId : String
deriving DecidableEq, Repr

/-- A presence hash stored at key `presence:userId` by `PresenceManager`:
fields written by `setOnline` (`socketId`, `timestamp`, spread metadata
`username`). -/
structure PresenceRecord where
  socketId : String
  timestamp : Nat
  username : String
deriving DecidableEq, Repr

/-- State of the Redis presence data: the presence hashes and the
`online_users` set. -/
structure PresenceState where
  records : List (String × PresenceRecord)
  onlineSet : List String
deriving DecidableEq, Repr

/-- A presence change event published on the `presence:changes` channel. -/
structure PresenceChange where
  userId : String
  status : String
  timestamp : Nat
  metadata : Option String
deriving DecidableEq, Repr

/-- A route hash stored at key `socket:route:userId` by `SocketRouter`. -/
structure RouteRecord where
  socketId : String
  serverId : String
  lastHeartbeat : Nat
deriving DecidableEq, Repr

/-- State of the Redis routing table. -/
structure RouterState where
  routes : List (String × RouteRecord)
deriving DecidableEq, Repr

/-- Combined state of one instance: in-process manager plus the shared
presence and routing data. -/
structure World where
  manager : WSManagerState
  presence : PresenceState
  router : RouterState
deriving DecidableEq, Repr

/-- Observable delivery effects: a write to a local socket, or a publication
on a per-server pub/sub channel (`SocketRouter.publishToServer`). -/
inductive Effect where
  | sendEff (socketId : String) (msg : WSMessage)
  | publishEff (serverId : String) (event : String)
deriving DecidableEq, Repr

/-- Recognizer for cross-instance publications. -/
def Effect.isPublish : Effect → Bool
  | .publishEff _ _ => true
  | .sendEff _ _ => false

/-! ## PresenceManager (from `src/backend/src/redis/socketRouter.ts`,
`PresenceManager`) -/

/-- Embedding of `PresenceManager.setOnline`: upsert the presence hash, add the user to the
online set, publish an `online` presence change with the metadata. -/
def setOnline (ps : PresenceState) (userId socketId username : String)
    (now : Nat) : PresenceState × List PresenceChange :=
  ({ records := alSet ps.records userId ⟨socketId, now, username⟩,
     onlineSet := setAdd ps.onlineSet userId },
   [⟨userId, "online", now, some username⟩])

/-- Embedding of `PresenceManager.setOffline`: read the stored hash; only when a hash is
stored and its `socketId` equals the argument, delete it, remove the user from
the online set, and publish an `offline` presence change.  (In the source the
guard is `current && current.socketId === socketId`; a missing key yields an
empty hash whose `socketId` field is `undefined`, so the guard is false.) -/
def setOffline (ps : PresenceState) (userId socketId : String) (now : Nat) :
    PresenceState × List PresenceChange :=
  match alGet ps.records userId with
  | none => (ps, [])
  | some r =>
      if r.socketId = socketId then
        ({ records := alDelete ps.records userId,
           onlineSet := setDelete ps.onlineSet userId },
         [⟨userId, "offline", now, none⟩])
      else
        (ps, [])

/-- Since `PresenceManager.refreshSession` only renews the Redis TTL, which is not
part of the embedded observable state, so it is the identity here. -/
def refreshSession (ps : PresenceState) (_userId : String) : PresenceState :=
  ps

/-! ## SocketRouter (from `src/backend/src/redis/socketRouter.ts`,
`SocketRouter`) -/

/-- Embedding of `SocketRouter.registerSocket`: upsert the route hash for the user. -/
def registerSocket (rs : RouterState) (userId socketId serverId : String)
    (now : Nat) : RouterState :=
  { routes := alSet rs.routes userId ⟨socketId, serverId, now⟩ }

/-- Embedding of `SocketRouter.getUserSocket`: read the route hash. -/
def getUserSocket (rs : RouterState) (userId : String) : Option RouteRecord :=
  alGet rs.routes userId

/-- Embedding of `SocketRouter.removeSocket`: conditional delete, guarded by a matching
stored `socketId`. -/
def removeSocket (rs : RouterState) (userId socketId : String) : RouterState :=
  match alGet rs.routes userId with
  | none => rs
  | some r =>
      if r.socketId = socketId then { routes := alDelete rs.routes userId }
      else rs

/-! ## WebSocketManager (from `src/backend/src/websocket/manager.ts`) -/

/-- Embedding of `WebSocketManager.addConnection`: unconditionally `Map.set` a fresh
`ConnectedSocket` with an empty subscription set, then `setOnline` and
`registerSocket`.  There is no duplicate check. -/
def addConnection (w : World) (socketId : String) (data : WebSocketData)
    (sock : Option SocketHandle) (now : Nat) : World × List PresenceChange :=
  let conn : ConnectedSocket := ⟨data, [], sock⟩
  let m1 : WSManagerState :=
    { w.manager with connections := alSet w.manager.connections socketId conn }
  let po := setOnline w.presence data.userId socketId data.username now
  let r1 := registerSocket w.router data.userId socketId w.manager.serverId now
  (⟨m1, po.1, r1⟩, po.2)

/-- Embedding of `WebSocketManager.removeConnection`: when the socket is registered, run
`setOffline` and `removeSocket`, then delete the map entry; otherwise do
nothing. -/
def removeConnection (w : World) (socketId : String) (now : Nat) :
    World × List PresenceChange :=
  match alGet w.manager.connections socketId with
  | none => (w, [])
  | some conn =>
      let po := setOffline w.presence conn.data.userId socketId now
      let r1 := removeSocket w.router conn.data.userId socketId
      let m1 : WSManagerState :=
        { w.manager with
            connections := alDelete w.manager.connections socketId }
      (⟨m1, po.1, r1⟩, po.2)

/-- Embedding of `WebSocketManager.subscribeToConversation`: add the conversation to the
subscription set of the connection, no-op when the connection is gone. -/
def subscribeToConversation (st : WSManagerState)
    (socketId conversationId : String) : WSManagerState :=
  match alGet st.connections socketId with
  | none => st
  | some conn =>
      { st with
          connections :=
            alSet st.connections socketId
              { conn with
                  subscriptions := setAdd conn.subscriptions conversationId } }

/-- Embedding of `WebSocketManager.unsubscribeFromConversation`: remove the conversation
from the subscription set, no-op when the connection is gone. -/
def unsubscribeFromConversation (st : WSManagerState)
    (socketId conversationId : String) : WSManagerState :=
  match alGet st.connections socketId with
  | none => st
  | some conn =>
      { st with
          connections :=
            alSet st.connections socketId
              { conn with
                  subscriptions :=
                    setDelete conn.subscriptions conversationId } }

/-- Embedding of `WebSocketManager.getConversationSubscribers`: snapshot of the connection
values whose subscription set contains the conversation, in map iteration
order. -/
def getConversationSubscribers (st : WSManagerState)
    (conversationId : String) : List ConnectedSocket :=
  (st.connections.map Prod.snd).filter
    (fun c => conversationId ∈ c.subscriptions)

/-- Embedding of `WebSocketManager.getConnectionCount`. -/
def getConnectionCount (st : WSManagerState) : Nat :=
  st.connections.length

/-- Embedding of `WebSocketManager.getConnection`. -/
def getConnection (st : WSManagerState) (socketId : String) :
    Option ConnectedSocket :=
  alGet st.connections socketId

/-- Embedding of `WebSocketManager.sendToSocket`: look up the connection; when it exists
and has a socket handle, serialize and write (the write is the emitted
effect); a throwing `send` is caught and yields `false` without any state
change. -/
def sendToSocket (st : WSManagerState) (socketId : String) (msg : WSMessage) :
    WSManagerState × Bool × List Effect :=
  match alGet st.connections socketId with
  | none => (st, false, [])
  | some conn =>
      match conn.socket with
      | none => (st, false, [])
      | some h => (st, h.sendOk, [Effect.sendEff socketId msg])

/-- Result of `sendToConversation`: final manager state, the returned counter,
the socket ids passed to `sendToSocket` in order, the socket ids for which
`sendToSocket` returned `true`, and the emitted write effects. -/
structure ConvSendResult where
  st : WSManagerState
  sent : Nat
  calls : List String
  delivered : List String
  effects : List Effect
deriving DecidableEq, Repr

/-- The guard `excludeUserId && subscriber.data.userId === excludeUserId` from
`sendToConversation`: an absent or empty-string `excludeUserId` is falsy in
JavaScript and excludes nobody. -/
def isExcluded (ex : Option String) (c : ConnectedSocket) : Bool :=
  match ex with
  | none => false
  | some u => (u ≠ "" : Bool) && (c.data.userId = u : Bool)

/-- The subscriber loop of `WebSocketManager.sendToConversation`, with the
manager state threaded through each `sendToSocket` call. -/
def sendConvLoop (st : WSManagerState) (msg : WSMessage) (ex : Option String) :
    List ConnectedSocket → ConvSendResult
  | [] => ⟨st, 0, [], [], []⟩
  | c :: rest =>
      if isExcluded ex c then sendConvLoop st msg ex rest
      else
        let s := sendToSocket st c.data.socketId msg
        let r := sendConvLoop s.1 msg ex rest
        ⟨r.st, (if s.2.1 then 1 else 0) + r.sent,
         c.data.socketId :: r.calls,
         (if s.2.1 then [c.data.socketId] else []) ++ r.delivered,
         s.2.2 ++ r.effects⟩

/-- Embedding of `WebSocketManager.sendToConversation`. -/
def sendToConversation (st : WSManagerState) (conversationId : String)
    (msg : WSMessage) (ex : Option String) : ConvSendResult :=
  sendConvLoop st msg ex (getConversationSubscribers st conversationId)

/-- The `new_message` frame constructed by `broadcastNewMessage`. -/
def newMessageWS (conversationId message : String) (now : Nat) : WSMessage :=
  ⟨"new_message", WSPayload.newMessageP conversationId message, now⟩

/-- The `new_reaction` frame constructed by `broadcastNewReaction`. -/
def newReactionWS (conversationId messageId reaction : String) (now : Nat) :
    WSMessage :=
  ⟨"new_reaction",
   WSPayload.newReactionP conversationId messageId reaction, now⟩

/-- The subscriber loop shared by `broadcastNewMessage` and
`broadcastNewReaction`: send to every subscriber, no exclusion, discarding the
boolean result. -/
def broadcastConvLoop (st : WSManagerState) (msg : WSMessage) :
    List ConnectedSocket → WSManagerState × List Effect
  | [] => (st, [])
  | c :: rest =>
      let s := sendToSocket st c.data.socketId msg
      let r := broadcastConvLoop s.1 msg rest
      (r.1, s.2.2 ++ r.2)

/-- Embedding of `WebSocketManager.broadcastNewMessage`: local fan-out of a `new_message`
frame to every subscriber of the conversation.  The method performs no
pub/sub publication. -/
def broadcastNewMessage (st : WSManagerState) (conversationId message : String)
    (now : Nat) : WSManagerState × List Effect :=
  broadcastConvLoop st (newMessageWS conversationId message now)
    (getConversationSubscribers st conversationId)

/-- Embedding of `WebSocketManager.broadcastNewReaction`: local fan-out of a `new_reaction`
frame to every subscriber of the conversation.  The method performs no
pub/sub publication. -/
def broadcastNewReaction (st : WSManagerState)
    (conversationId messageId reaction : String) (now : Nat) :
    WSManagerState × List Effect :=
  broadcastConvLoop st (newReactionWS conversationId messageId reaction now)
    (getConversationSubscribers st conversationId)

/-- The loop body of `WebSocketManager.broadcast` contains only comments and
performs no send, so the loop emits no effect. -/
def broadcastStubLoop : List ConnectedSocket → List Effect
  | [] => []
  | _ :: rest => broadcastStubLoop rest

/-- Embedding of `WebSocketManager.broadcast`: serializes the message and iterates over all
connections, but the loop body is an unimplemented stub that never writes to
any socket. -/
def broadcast (st : WSManagerState) (_msg : WSMessage) :
    WSManagerState × List Effect :=
  (st, broadcastStubLoop (st.connections.map Prod.snd))

/-- The `subscribeToPresenceChanges` callback registered by the Gateway
(`src/unnamed/part_000`): wrap the received presence change in a `presence`
frame and hand it to `WebSocketManager.broadcast`. -/
def presenceRelay (st : WSManagerState) (pc : PresenceChange) (now : Nat) :
    WSManagerState × List Effect :=
  broadcast st
    ⟨"presence", WSPayload.presenceP pc.userId pc.status pc.timestamp, now⟩

/-! ## Gateway inbound frame handling (from `src/unnamed/part_000`) -/

/-- Payload fields of an inbound client frame that the dispatcher reads
(`msg.payload.conversationId`, `msg.payload.isTyping`). -/
structure InPayload where
  conversationId : Option String
  isTyping : Bool
deriving DecidableEq, Repr

/-- A decoded inbound frame. -/
structure InFrame where
  type_ : String
  payload : InPayload
deriving DecidableEq, Repr

/-- An inbound transport message: either a frame whose `JSON.parse` throws, or
a decoded frame. -/
inductive Inbound where
  | malformed
  | frame (f : InFrame)
deriving DecidableEq, Repr

/-- Outcome of handling one inbound message: the resulting instance state, the
messages written directly to this client via `sendMessage`, the effects sent
to other sockets, and whether the handler closed the connection (the message
handler never calls `close`). -/
structure GatewayResult where
  world : World
  sent : List WSMessage
  effects : List Effect
  closed : Bool
deriving DecidableEq, Repr

/-- An `error` frame built by the Gateway. -/
def errorWS (code message : String) (now : Nat) : WSMessage :=
  ⟨"error", WSPayload.errorP code message, now⟩

/-- The inbound frame type strings with a dedicated `switch` case in
`handleWebSocketMessage`. -/
def knownTypes : List String := ["ping", "subscribe", "unsubscribe", "typing"]

/-- Embedding of `handleWebSocketMessage` from `src/unnamed/part_000`: dispatch on
`msg.type`.  The truthiness test `if (msg.payload.conversationId)` treats a
missing or empty-string conversation id as absent. -/
def handleFrame (w : World) (f : InFrame) (data : WebSocketData) (now : Nat) :
    GatewayResult :=
  if f.type_ = "ping" then
    ⟨w, [⟨"pong", WSPayload.emptyP, now⟩], [], false⟩
  else if f.type_ = "subscribe" then
    match f.payload.conversationId with
    | some cid =>
        if cid = "" then ⟨w, [], [], false⟩
        else
          ⟨⟨subscribeToConversation w.manager data.socketId cid,
            refreshSession w.presence data.userId, w.router⟩, [], [], false⟩
    | none => ⟨w, [], [], false⟩
  else if f.type_ = "unsubscribe" then
    match f.payload.conversationId with
    | some cid =>
        if cid = "" then ⟨w, [], [], false⟩
        else
          ⟨⟨unsubscribeFromConversation w.manager data.socketId cid,
            w.presence, w.router⟩, [], [], false⟩
    | none => ⟨w, [], [], false⟩
  else if f.type_ = "typing" then
    match f.payload.conversationId with
    | some cid =>
        if cid = "" then ⟨w, [], [], false⟩
        else
          let r := sendToConversation w.manager cid
            ⟨"typing",
             WSPayload.typingP cid data.userId f.payload.isTyping, now⟩
            (some data.userId)
          ⟨⟨r.st, w.presence, w.router⟩, [], r.effects, false⟩
    | none => ⟨w, [], [], false⟩
  else
    ⟨w,
     [errorWS "UNKNOWN_MESSAGE_TYPE"
        (String.append "Unknown message type: " f.type_) now],
     [], false⟩

/-- The `connection.on` message listener: `JSON.parse` failures are caught and
answered with a single `MESSAGE_ERROR` error frame; decoded frames go to
`handleWebSocketMessage`. -/
def handleInbound (w : World) (inb : Inbound) (data : WebSocketData)
    (now : Nat) : GatewayResult :=
  match inb with
  | .malformed =>
      ⟨w, [errorWS "MESSAGE_ERROR" "Failed to process message" now], [], false⟩
  | .frame f => handleFrame w f data now

/-! ## Well-formedness of reachable registry states -/

/-- Reachable manager states: map keys are duplicate-free and every connection
is stored under its own `data.socketId` (the Gateway always registers a
connection under the socket id it embeds in `WebSocketData`). -/
def WF (st : WSManagerState) : Prop :=
  (alKeys st.connections).Nodup ∧
  ∀ p ∈ st.connections, p.2.data.socketId = p.1

instance (st : WSManagerState) : Decidable (WF st) := by
  unfold WF
  infer_instance

/-! ## Association list lemmas -/

/-- Unfolding lemma for `alGet` on a cons cell. -/
theorem alGet_cons {β : Type} (k1 : String) (w : β) (rest : List (String × β))
    (k : String) :
    alGet ((k1, w) :: rest) k = if k1 = k then some w else alGet rest k := rfl

/-- Lookup after the overwrite branch of `alSet`. -/
theorem alGet_map_set {β : Type} (m : List (String × β)) (k : String) (v : β) :
    alGet (m.map (fun p => if p.1 = k then (k, v) else p)) k =
      (alGet m k).map (fun _ => v) := by
  induction m with
  | nil => rfl
  | cons p rest ih =>
      obtain ⟨k1, w⟩ := p
      by_cases h : k1 = k
      · subst h
        simp [List.map_cons, alGet_cons, ih]
      · simp [List.map_cons, alGet_cons, h, ih]

/-- Lookup at a different key after the overwrite branch of `alSet`. -/
theorem alGet_map_set_ne {β : Type} (m : List (String × β)) (k k2 : String)
    (v : β) (h : k2 ≠ k) :
    alGet (m.map (fun p => if p.1 = k then (k, v) else p)) k2 = alGet m k2 := by
  induction m with
  | nil => rfl
  | cons p rest ih =>
      obtain ⟨k1, w⟩ := p
      by_cases h1 : k1 = k
      · subst h1
        simp [List.map_cons, alGet_cons, Ne.symm h, ih]
      · simp [List.map_cons, alGet_cons, h1, ih]

/-- Lookup distributes over append with first-match priority. -/
theorem alGet_append {β : Type} (m1 m2 : List (String × β)) (k : String) :
    alGet (m1 ++ m2) k =
      match alGet m1 k with
      | some v => some v
      | none => alGet m2 k := by
  induction m1 with
  | nil => simp [alGet]
  | cons p rest ih =>
      obtain ⟨k1, w⟩ := p
      by_cases h : k1 = k <;> simp [alGet, h, ih]

/-- Looking up the key just written by `alSet` yields the written value. -/
theorem alGet_alSet_self {β : Type} (m : List (String × β)) (k : String)
    (v : β) : alGet (alSet m k v) k = some v := by
  unfold alSet
  by_cases hs : (alGet m k).isSome
  · rw [if_pos hs, alGet_map_set]
    cases hm : alGet m k
    · rw [hm] at hs
      simp at hs
    · simp
  · rw [if_neg hs, alGet_append]
    cases hm : alGet m k
    · simp [alGet]
    · rw [hm] at hs
      simp at hs

/-- Lemma: `alSet` does not disturb other keys. -/
theorem alGet_alSet_ne {β : Type} (m : List (String × β)) (k k2 : String)
    (v : β) (h : k2 ≠ k) : alGet (alSet m k v) k2 = alGet m k2 := by
  unfold alSet
  by_cases hs : (alGet m k).isSome
  · rw [if_pos hs, alGet_map_set_ne m k k2 v h]
  · rw [if_neg hs, alGet_append]
    cases hm : alGet m k2
    · simp [alGet, Ne.symm h]
    · simp

/-- A key is absent exactly when lookup fails. -/
theorem alGet_eq_none_iff {β : Type} (m : List (String × β)) (k : String) :
    alGet m k = none ↔ k ∉ alKeys m := by
  induction m with
  | nil => simp [alGet, alKeys]
  | cons p rest ih =>
      obtain ⟨k1, w⟩ := p
      by_cases h : k1 = k
      · subst h
        simp [alGet, alKeys]
      · simp [alGet, alKeys, h, ih, Ne.symm h]

/-- With duplicate-free keys, membership determines lookup. -/
theorem alGet_eq_of_mem {β : Type} (m : List (String × β)) (k : String)
    (v : β) (hnd : (alKeys m).Nodup) (hmem : (k, v) ∈ m) :
    alGet m k = some v := by
  induction m with
  | nil => simp at hmem
  | cons p rest ih =>
      obtain ⟨k1, w⟩ := p
      rw [alKeys] at hnd
      simp only [List.map_cons, List.nodup_cons] at hnd
      rcases List.mem_cons.mp hmem with hh | ht
      · rw [← hh]
        simp [alGet]
      · have hk : k1 ≠ k := by
          intro he
          subst he
          exact hnd.1 (List.mem_map.mpr ⟨(k1, v), ht, rfl⟩)
        simp [alGet, hk]
        exact ih hnd.2 ht

/-- Deleting an element absent from a list is a no-op. -/
theorem filter_ne_of_not_mem (l : List String) (x : String) (h : x ∉ l) :
    l.filter (fun y => y ≠ x) = l := by
  apply List.filter_eq_self.mpr
  intro a ha
  simp only [decide_eq_true_eq]
  intro he
  exact h (he ▸ ha)

/-! ## Claim C4 -/

/-- Claim C4: `setOffline(userId, socketId)` with a stored presence record is
a complete no-op when the stored socketId differs from the argument; when it
matches, the record is deleted, the user leaves the online set, and exactly
one `offline` presence change is published. -/
theorem setOffline_socket_guard (ps : PresenceState) (uid sid : String)
    (now : Nat) (r : PresenceRecord) (h : alGet ps.records uid = some r) :
    (r.socketId ≠ sid → setOffline ps uid sid now = (ps, [])) ∧
    (r.socketId = sid →
      setOffline ps uid sid now =
        (⟨alDelete ps.records uid, setDelete ps.onlineSet uid⟩,
         [⟨uid, "offline", now, none⟩])) := by
  constructor
  · intro hne
    simp only [setOffline, h, if_neg hne]
  · intro heq
    simp only [setOffline, h, if_pos heq]

/-- Sample presence state with one stored record. -/
def psW : PresenceState := ⟨[("u1", ⟨"s1", 0, "alice"⟩)], ["u1"]⟩

/-- Witness for claim C4 at a concrete presence state, exercising both the
mismatching and the matching socket id. -/
theorem setOffline_socket_guard_witness :
    setOffline psW "u1" "s2" 5 = (psW, []) ∧
    setOffline psW "u1" "s1" 5 = (⟨[], []⟩, [⟨"u1", "offline", 5, none⟩]) := by
  constructor
  · exact (setOffline_socket_guard psW "u1" "s2" 5 ⟨"s1", 0, "alice"⟩
      (by decide)).1 (by decide)
  · exact ((setOffline_socket_guard psW "u1" "s1" 5 ⟨"s1", 0, "alice"⟩
      (by decide)).2 rfl).trans (by decide)

/-! ## Claim C9 -/

/-- Claim C9: `setOffline` with no stored presence record for the user is a
total no-op for every socket id: no deletion, no online-set change, no
published event. -/
theorem setOffline_absent_noop (ps : PresenceState) (uid sid : String)
    (now : Nat) (h : alGet ps.records uid = none) :
    setOffline ps uid sid now = (ps, []) := by
  simp only [setOffline, h]

/-- Witness for claim C9 at a concrete presence state. -/
theorem setOffline_absent_noop_witness :
    setOffline psW "u2" "s1" 3 = (psW, []) :=
  setOffline_absent_noop psW "u2" "s1" 3 (by decide)

/-! ## Claim C3 -/

/-- A connection subscribed to conversation `c1`. -/
def connA : ConnectedSocket :=
  ⟨⟨"u1", "alice", "s1", "srv", 0⟩, ["c1"], some ⟨true⟩⟩

/-- A manager state holding `connA` under its socket id. -/
def stC3 : WSManagerState := ⟨[("s1", connA)], "srv"⟩

/-- Counterexample to claim C3 as stated: when the conversation is already in
the subscription set, subscribe-then-unsubscribe does not restore the
pre-state: the pre-existing subscription is lost. -/
theorem subscribe_unsubscribe_roundtrip_cex :
    (getConnection stC3 "s1").map ConnectedSocket.subscriptions =
      some ["c1"] ∧
    (getConnection
        (unsubscribeFromConversation
          (subscribeToConversation stC3 "s1" "c1") "s1" "c1")
        "s1").map ConnectedSocket.subscriptions = some [] ∧
    unsubscribeFromConversation (subscribeToConversation stC3 "s1" "c1")
        "s1" "c1" ≠ stC3 := by
  decide

/-- Claim C3 (amended): for every pre-state in which the conversation is not
already in the connections subscription set (including the connection being
absent), subscribe followed by unsubscribe of the same pair restores that
connection exactly. -/
theorem subscribe_unsubscribe_roundtrip (st : WSManagerState)
    (sid cid : String)
    (h : ∀ c, alGet st.connections sid = some c → cid ∉ c.subscriptions) :
    getConnection
        (unsubscribeFromConversation (subscribeToConversation st sid cid)
          sid cid) sid =
      getConnection st sid := by
  cases hc : alGet st.connections sid with
  | none =>
      simp only [subscribeToConversation, hc, unsubscribeFromConversation,
        getConnection]
  | some c =>
      have hcid : cid ∉ c.subscriptions := h c hc
      have hadd : setAdd c.subscriptions cid = c.subscriptions ++ [cid] := by
        unfold setAdd
        rw [if_neg hcid]
      have hdel :
          setDelete (c.subscriptions ++ [cid]) cid = c.subscriptions := by
        unfold setDelete
        rw [List.filter_append, filter_ne_of_not_mem _ _ hcid]
        simp
      simp only [subscribeToConversation, hc]
      simp only [unsubscribeFromConversation, alGet_alSet_self]
      simp only [getConnection, alGet_alSet_self, hadd, hdel, hc]

/-- Witness for claim C3 (amended) at a concrete state where the conversation
is not yet subscribed. -/
theorem subscribe_unsubscribe_roundtrip_witness :
    getConnection
        (unsubscribeFromConversation (subscribeToConversation stC3 "s1" "c2")
          "s1" "c2") "s1" =
      getConnection stC3 "s1" :=
  subscribe_unsubscribe_roundtrip stC3 "s1" "c2" (by decide)

/-! ## Claim C6 -/

/-- The stub loop of `broadcast` emits nothing, whatever the connections. -/
theorem broadcastStubLoop_eq_nil (l : List ConnectedSocket) :
    broadcastStubLoop l = [] := by
  induction l with
  | nil => rfl
  | cons c rest ih => exact ih

/-- A connection with a live socket handle, connected while a presence change
arrives. -/
def connB : ConnectedSocket :=
  ⟨⟨"u1", "alice", "s1", "srv", 0⟩, [], some ⟨true⟩⟩

/-- Manager state holding `connB`. -/
def stC6 : WSManagerState := ⟨[("s1", connB)], "srv"⟩

/-- Claim C6 (code bug): a presence-change event received from the bus is
handed to `WebSocketManager.broadcast`, whose loop body is an unimplemented
stub, so no locally connected socket receives the presence event even though
one is connected with a live handle. -/
theorem presenceRelay_sends_nothing :
    getConnectionCount stC6 = 1 ∧ connB.socket.isSome = true ∧
    (presenceRelay stC6 ⟨"u2", "online", 5, none⟩ 6).2 = [] := by
  refine ⟨rfl, rfl, ?_⟩
  exact broadcastStubLoop_eq_nil _

/-! ## Claim C5 -/

/-- Identity of the first registered user. -/
def d5a : WebSocketData := ⟨"u1", "alice", "s1", "srv", 0⟩

/-- Identity of a second user registered under the same socket id. -/
def d5b : WebSocketData := ⟨"u2", "bob", "s1", "srv", 1⟩

/-- A world with one registered connection under socket id `s1`. -/
def w5 : World :=
  ⟨⟨[("s1", ⟨d5a, ["c1"], none⟩)], "srv"⟩, ⟨[], []⟩, ⟨[]⟩⟩

/-- Counterexample to claim C5 as stated: registering a socket id that is
already present does not fail; it silently overwrites the existing connection
(the old identity and its subscription set are lost, the map size stays 1). -/
theorem addConnection_overwrites_cex :
    getConnection w5.manager "s1" = some ⟨d5a, ["c1"], none⟩ ∧
    getConnection (addConnection w5 "s1" d5b none 2).1.manager "s1" =
      some ⟨d5b, [], none⟩ ∧
    getConnectionCount (addConnection w5 "s1" d5b none 2).1.manager = 1 := by
  decide

/-- Claim C5 (amended): `addConnection` always succeeds; it stores the fresh
connection under the given socket id (overwriting any existing entry) and
leaves every other socket id untouched. -/
theorem addConnection_always_inserts (w : World) (sid : String)
    (data : WebSocketData) (sock : Option SocketHandle) (now : Nat) :
    getConnection (addConnection w sid data sock now).1.manager sid =
      some ⟨data, [], sock⟩ ∧
    ∀ sid2, sid2 ≠ sid →
      getConnection (addConnection w sid data sock now).1.manager sid2 =
        getConnection w.manager sid2 := by
  constructor
  · exact alGet_alSet_self _ _ _
  · intro sid2 hne
    exact alGet_alSet_ne _ _ _ _ hne

/-- Witness for claim C5 (amended) at a concrete world. -/
theorem addConnection_always_inserts_witness :
    getConnection (addConnection w5 "s2" d5b none 2).1.manager "s2" =
      some ⟨d5b, [], none⟩ ∧
    getConnection (addConnection w5 "s2" d5b none 2).1.manager "s1" =
      getConnection w5.manager "s1" :=
  ⟨(addConnection_always_inserts w5 "s2" d5b none 2).1,
   (addConnection_always_inserts w5 "s2" d5b none 2).2 "s1" (by decide)⟩

/-! ## Claim C10 -/

/-- Lemma: `sendToSocket` leaves the manager state untouched, also on lookup failure,
missing handle, or a throwing send. -/
theorem sendToSocket_preserves (st : WSManagerState) (sid : String)
    (msg : WSMessage) : (sendToSocket st sid msg).1 = st := by
  cases hc : alGet st.connections sid with
  | none => simp [sendToSocket, hc]
  | some conn =>
      cases hs : conn.socket with
      | none => simp [sendToSocket, hc, hs]
      | some h => simp [sendToSocket, hc, hs]

/-- The `sendToConversation` loop leaves the manager state untouched. -/
theorem sendConvLoop_preserves (msg : WSMessage) (ex : Option String)
    (l : List ConnectedSocket) : ∀ st, (sendConvLoop st msg ex l).st = st := by
  induction l with
  | nil =>
      intro st
      rfl
  | cons c rest ih =>
      intro st
      by_cases he : isExcluded ex c
      · simp only [sendConvLoop, if_pos he]
        exact ih st
      · simp only [sendConvLoop, if_neg he]
        rw [ih, sendToSocket_preserves]

/-- The broadcast loop leaves the manager state untouched. -/
theorem broadcastConvLoop_preserves (msg : WSMessage)
    (l : List ConnectedSocket) : ∀ st, (broadcastConvLoop st msg l).1 = st := by
  induction l with
  | nil =>
      intro st
      rfl
  | cons c rest ih =>
      intro st
      simp only [broadcastConvLoop]
      rw [ih, sendToSocket_preserves]

/-- Claim C10: none of the send operations mutates the registry: the
connection map and every subscription set are identical before and after
`sendToSocket`, `sendToConversation`, `broadcastNewMessage`, and
`broadcastNewReaction`, for every state, including states whose sends fail
(missing handle or throwing `send`). -/
theorem send_ops_preserve_registry (st : WSManagerState)
    (sid cid mid : String) (msg : WSMessage) (ex : Option String)
    (message reaction : String) (now : Nat) :
    (sendToSocket st sid msg).1 = st ∧
    (sendToConversation st cid msg ex).st = st ∧
    (broadcastNewMessage st cid message now).1 = st ∧
    (broadcastNewReaction st cid mid reaction now).1 = st :=
  ⟨sendToSocket_preserves st sid msg,
   sendConvLoop_preserves msg ex (getConversationSubscribers st cid) st,
   broadcastConvLoop_preserves (newMessageWS cid message now)
     (getConversationSubscribers st cid) st,
   broadcastConvLoop_preserves (newReactionWS cid mid reaction now)
     (getConversationSubscribers st cid) st⟩

/-! ## Claim C1 -/

/-- The socket ids passed to `sendToSocket` by the `sendToConversation` loop
are exactly the socket ids of the non-excluded subscribers, in order. -/
theorem sendConvLoop_calls (msg : WSMessage) (ex : Option String)
    (l : List ConnectedSocket) : ∀ st,
    (sendConvLoop st msg ex l).calls =
      (l.filter (fun c => !isExcluded ex c)).map
        (fun c => c.data.socketId) := by
  induction l with
  | nil =>
      intro st
      rfl
  | cons c rest ih =>
      intro st
      by_cases he : isExcluded ex c
      · simp only [sendConvLoop, if_pos he]
        simp [List.filter_cons, he, ih]
      · simp only [sendConvLoop, if_neg he]
        simp [List.filter_cons, he, ih]

/-- The counter returned by the `sendToConversation` loop equals the number of
successful sends. -/
theorem sendConvLoop_sent_eq (msg : WSMessage) (ex : Option String)
    (l : List ConnectedSocket) : ∀ st,
    (sendConvLoop st msg ex l).sent =
      (sendConvLoop st msg ex l).delivered.length := by
  induction l with
  | nil =>
      intro st
      rfl
  | cons c rest ih =>
      intro st
      by_cases he : isExcluded ex c
      · simp only [sendConvLoop, if_pos he]
        exact ih st
      · have h2 := ih (sendToSocket st c.data.socketId msg).1
        cases hok : (sendToSocket st c.data.socketId msg).2.1 with
        | false => simp [sendConvLoop, if_neg he, hok, h2]
        | true =>
            simp [sendConvLoop, if_neg he, hok, h2]
            omega

/-- Under well-formedness, the socket ids of the connection values are the map
keys. -/
theorem map_socketId_eq_keys (m : List (String × ConnectedSocket))
    (h : ∀ p ∈ m, p.2.data.socketId = p.1) :
    (m.map Prod.snd).map (fun c => c.data.socketId) = alKeys m := by
  induction m with
  | nil => rfl
  | cons p rest ih =>
      have ht := ih (fun q hq => h q (List.mem_cons_of_mem p hq))
      simp only [List.map_cons, alKeys, List.map_map] at ht ⊢
      rw [h p (List.mem_cons_self p rest), ht]

/-- A subscriber with the empty-string user id. -/
def connEmptyUser : ConnectedSocket :=
  ⟨⟨"", "anon", "s0", "srv", 0⟩, ["c1"], some ⟨true⟩⟩

/-- A registry holding only `connEmptyUser`, subscribed to `c1`. -/
def stC1e : WSManagerState := ⟨[("s0", connEmptyUser)], "srv"⟩

/-- A sample message used for fan-out. -/
def msgW : WSMessage := ⟨"typing", WSPayload.typingP "c1" "z" true, 0⟩

/-- Counterexample to claim C1 as stated: with `excludeUserId` the empty
string, the guard `excludeUserId && ...` is falsy, so the event IS delivered
to a local subscriber whose userId equals the excluded user id. -/
theorem sendToConversation_empty_exclude_cex :
    (getConnection stC1e "s0").map (fun c => c.data.userId) = some "" ∧
    (sendToConversation stC1e "c1" msgW (some "")).calls = ["s0"] ∧
    (sendToConversation stC1e "c1" msgW (some "")).delivered = ["s0"] := by
  decide

/-- Claim C1 (amended): for every well-formed registry state and every
nonempty excluded user id, `sendToConversation` never sends to a connection
of the excluded user, sends exactly once to every other local connection
whose subscription set contains the conversation, and returns the number of
subscribers to which the send succeeded. -/
theorem sendToConversation_exclusion (st : WSManagerState) (cid : String)
    (msg : WSMessage) (u : String) (hu : u ≠ "") (hwf : WF st) :
    (∀ sid ∈ (sendToConversation st cid msg (some u)).calls,
        ∀ c, alGet st.connections sid = some c → c.data.userId ≠ u) ∧
    (∀ sid c, (sid, c) ∈ st.connections → cid ∈ c.subscriptions →
        c.data.userId ≠ u →
        (sendToConversation st cid msg (some u)).calls.count sid = 1) ∧
    (sendToConversation st cid msg (some u)).sent =
      (sendToConversation st cid msg (some u)).delivered.length := by
  have hcalls :
      (sendToConversation st cid msg (some u)).calls =
        ((getConversationSubscribers st cid).filter
            (fun c => !isExcluded (some u) c)).map
          (fun c => c.data.socketId) :=
    sendConvLoop_calls msg (some u) (getConversationSubscribers st cid) st
  have hnodupcalls : (sendToConversation st cid msg (some u)).calls.Nodup := by
    rw [hcalls]
    have hsub0 : List.Sublist
        ((getConversationSubscribers st cid).filter
          (fun c => !isExcluded (some u) c))
        (getConversationSubscribers st cid) :=
      List.filter_sublist _
    have hsub0b : List.Sublist (getConversationSubscribers st cid)
        (st.connections.map Prod.snd) :=
      List.filter_sublist _
    have hsub1 := hsub0.trans hsub0b
    have hsub2 := hsub1.map (fun c => c.data.socketId)
    rw [map_socketId_eq_keys st.connections hwf.2] at hsub2
    exact List.Nodup.sublist hsub2 hwf.1
  refine ⟨?_, ?_,
    sendConvLoop_sent_eq msg (some u) (getConversationSubscribers st cid) st⟩
  · intro sid hsid c hc
    rw [hcalls] at hsid
    obtain ⟨c0, hc0, hc0sid⟩ := List.mem_map.mp hsid
    have hc0f := List.mem_filter.mp hc0
    have hc0subs := List.mem_filter.mp hc0f.1
    obtain ⟨p, hp, hpc⟩ := List.mem_map.mp hc0subs.1
    have hkey : c0.data.socketId = p.1 := by
      rw [← hpc]
      exact hwf.2 p hp
    have hmem : (p.1, c0) ∈ st.connections := by
      have hpp : p = (p.1, c0) := by
        cases p
        cases hpc
        rfl
      rw [← hpp]
      exact hp
    have hget : alGet st.connections sid = some c0 := by
      rw [← hc0sid, hkey]
      exact alGet_eq_of_mem _ _ _ hwf.1 hmem
    rw [hc] at hget
    injection hget with hcc
    subst hcc
    intro hequ
    have hexc := hc0f.2
    simp [isExcluded, hu, hequ] at hexc
  · intro sid c hmem hsubs hneq
    have hkey : c.data.socketId = sid := hwf.2 (sid, c) hmem
    have hval : c ∈ st.connections.map Prod.snd :=
      List.mem_map.mpr ⟨(sid, c), hmem, rfl⟩
    have hsubsm : c ∈ getConversationSubscribers st cid := by
      unfold getConversationSubscribers
      exact List.mem_filter.mpr ⟨hval, by simpa using hsubs⟩
    have hfil : c ∈ (getConversationSubscribers st cid).filter
        (fun c => !isExcluded (some u) c) := by
      refine List.mem_filter.mpr ⟨hsubsm, ?_⟩
      simp [isExcluded, hneq]
    have hsidmem : sid ∈ (sendToConversation st cid msg (some u)).calls := by
      rw [hcalls]
      exact List.mem_map.mpr ⟨c, hfil, hkey⟩
    exact List.count_eq_one_of_mem hnodupcalls hsidmem

/-- The connection of Alice, subscribed to `c1`. -/
def connW1 : ConnectedSocket :=
  ⟨⟨"alice", "alice", "s1", "srv", 0⟩, ["c1"], some ⟨true⟩⟩

/-- The connection of Bob, subscribed to `c1`. -/
def connW2 : ConnectedSocket :=
  ⟨⟨"bob", "bob", "s2", "srv", 0⟩, ["c1"], some ⟨true⟩⟩

/-- A well-formed registry with Alice and Bob subscribed to `c1`. -/
def stC1 : WSManagerState := ⟨[("s1", connW1), ("s2", connW2)], "srv"⟩

/-- Witness for claim C1 (amended) at a concrete two-subscriber registry with
Alice excluded. -/
theorem sendToConversation_exclusion_witness :
    (sendToConversation stC1 "c1" msgW (some "alice")).calls.count "s2" = 1 ∧
    (sendToConversation stC1 "c1" msgW (some "alice")).sent =
      (sendToConversation stC1 "c1" msgW (some "alice")).delivered.length :=
  ⟨((sendToConversation_exclusion stC1 "c1" msgW "alice" (by decide)
      (by decide)).2.1) "s2" connW2 (by decide) (by decide) (by decide),
   (sendToConversation_exclusion stC1 "c1" msgW "alice" (by decide)
      (by decide)).2.2⟩

/-! ## Claim C2 -/

/-- The write effects of `sendToSocket` never contain a publication. -/
theorem sendToSocket_effects_no_publish (st : WSManagerState) (sid : String)
    (msg : WSMessage) :
    ((sendToSocket st sid msg).2.2).filter Effect.isPublish = [] := by
  cases hc : alGet st.connections sid with
  | none => simp [sendToSocket, hc]
  | some conn =>
      cases hs : conn.socket with
      | none => simp [sendToSocket, hc, hs]
      | some h => simp [sendToSocket, hc, hs, Effect.isPublish]

/-- The broadcast loop never emits a publication effect. -/
theorem broadcastConvLoop_no_publish (msg : WSMessage)
    (l : List ConnectedSocket) : ∀ st,
    ((broadcastConvLoop st msg l).2).filter Effect.isPublish = [] := by
  induction l with
  | nil =>
      intro st
      rfl
  | cons c rest ih =>
      intro st
      simp only [broadcastConvLoop]
      rw [List.filter_append, sendToSocket_effects_no_publish, ih]
      rfl

/-- A write effect produced by one subscriber is in the output of the
broadcast loop. -/
theorem mem_broadcastConvLoop_effects (msg : WSMessage)
    (l : List ConnectedSocket) : ∀ st, ∀ c ∈ l, ∀ e,
    e ∈ (sendToSocket st c.data.socketId msg).2.2 →
    e ∈ (broadcastConvLoop st msg l).2 := by
  induction l with
  | nil =>
      intro st c hc
      simp at hc
  | cons c0 rest ih =>
      intro st c hc e he
      simp only [broadcastConvLoop]
      rcases List.mem_cons.mp hc with h | h
      · subst h
        exact List.mem_append.mpr (Or.inl he)
      · rw [sendToSocket_preserves]
        exact List.mem_append.mpr (Or.inr (ih st c h e he))

/-- A world whose registry is empty but whose routing table records that user
`bob` holds a live socket on another instance (`server-2`): a participant who
is not locally resolved. -/
def wC2 : World :=
  ⟨⟨[], "server-1"⟩, ⟨[], []⟩, ⟨[("bob", ⟨"sB", "server-2", 0⟩)]⟩⟩

/-- Counterexample to claim C2 as stated: with a participant routed to
another instance, `broadcastNewMessage` emits no effect at all — in
particular no cross-instance publication via the router is ever triggered. -/
theorem broadcastNewMessage_no_cross_instance_cex :
    getUserSocket wC2.router "bob" = some ⟨"sB", "server-2", 0⟩ ∧
    wC2.manager.serverId = "server-1" ∧
    (broadcastNewMessage wC2.manager "c1" "hi" 3).2 = [] ∧
    (broadcastNewReaction wC2.manager "c1" "m1" "r1" 3).2 = [] := by
  decide

/-- Claim C2 (amended): `broadcastNewMessage` and `broadcastNewReaction`
complete the local fan-out synchronously — before returning they write the
event to every locally-reachable subscriber socket of the conversation — but
they trigger no cross-instance publish: no publication effect is ever
emitted, so participants on other instances receive nothing from this path. -/
theorem broadcast_local_fanout_no_publish (st : WSManagerState)
    (cid message mid reaction : String) (now : Nat) (hwf : WF st) :
    (∀ sid c, (sid, c) ∈ st.connections → cid ∈ c.subscriptions →
        c.socket.isSome →
        Effect.sendEff sid (newMessageWS cid message now) ∈
          (broadcastNewMessage st cid message now).2) ∧
    ((broadcastNewMessage st cid message now).2).filter Effect.isPublish
      = [] ∧
    (∀ sid c, (sid, c) ∈ st.connections → cid ∈ c.subscriptions →
        c.socket.isSome →
        Effect.sendEff sid (newReactionWS cid mid reaction now) ∈
          (broadcastNewReaction st cid mid reaction now).2) ∧
    ((broadcastNewReaction st cid mid reaction now).2).filter
      Effect.isPublish = [] := by
  have hmem : ∀ (msg : WSMessage) sid c, (sid, c) ∈ st.connections →
      cid ∈ c.subscriptions → c.socket.isSome →
      Effect.sendEff sid msg ∈
        (broadcastConvLoop st msg (getConversationSubscribers st cid)).2 := by
    intro msg sid c hc hsubs hsock
    have hkey : c.data.socketId = sid := hwf.2 (sid, c) hc
    have hval : c ∈ st.connections.map Prod.snd :=
      List.mem_map.mpr ⟨(sid, c), hc, rfl⟩
    have hsubsm : c ∈ getConversationSubscribers st cid := by
      unfold getConversationSubscribers
      exact List.mem_filter.mpr ⟨hval, by simpa using hsubs⟩
    have hget : alGet st.connections sid = some c :=
      alGet_eq_of_mem _ _ _ hwf.1 hc
    apply mem_broadcastConvLoop_effects msg _ st c hsubsm
    rw [hkey]
    obtain ⟨h, hh⟩ := Option.isSome_iff_exists.mp hsock
    simp [sendToSocket, hget, hh]
  exact ⟨hmem (newMessageWS cid message now),
    broadcastConvLoop_no_publish (newMessageWS cid message now)
      (getConversationSubscribers st cid) st,
    hmem (newReactionWS cid mid reaction now),
    broadcastConvLoop_no_publish (newReactionWS cid mid reaction now)
      (getConversationSubscribers st cid) st⟩

/-- Witness for claim C2 (amended) at the concrete two-subscriber registry:
the socket of Bob receives the written `new_message` frame and no publication is
emitted. -/
theorem broadcast_local_fanout_no_publish_witness :
    Effect.sendEff "s2" (newMessageWS "c1" "hello" 4) ∈
      (broadcastNewMessage stC1 "c1" "hello" 4).2 ∧
    ((broadcastNewMessage stC1 "c1" "hello" 4).2).filter Effect.isPublish
      = [] :=
  ⟨(broadcast_local_fanout_no_publish stC1 "c1" "hello" "m" "r" 4
      (by decide)).1 "s2" connW2 (by decide) (by decide) (by decide),
   (broadcast_local_fanout_no_publish stC1 "c1" "hello" "m" "r" 4
      (by decide)).2.1⟩

/-! ## Claim C7 -/

/-- Claim C7: on an open connection, a malformed (non-decodable) frame and a
frame of unknown type each produce exactly one error event with a
machine-readable code, sent to that client only; the connection is not closed
and neither the registry nor the presence state changes. -/
theorem malformed_and_unknown_frames (w : World) (data : WebSocketData)
    (now : Nat) :
    ((handleInbound w Inbound.malformed data now).world = w ∧
     (handleInbound w Inbound.malformed data now).sent =
       [errorWS "MESSAGE_ERROR" "Failed to process message" now] ∧
     (handleInbound w Inbound.malformed data now).effects = [] ∧
     (handleInbound w Inbound.malformed data now).closed = false) ∧
    ∀ f : InFrame, f.type_ ∉ knownTypes →
      (handleInbound w (Inbound.frame f) data now).world = w ∧
      (handleInbound w (Inbound.frame f) data now).sent =
        [errorWS "UNKNOWN_MESSAGE_TYPE"
          (String.append "Unknown message type: " f.type_) now] ∧
      (handleInbound w (Inbound.frame f) data now).effects = [] ∧
      (handleInbound w (Inbound.frame f) data now).closed = false := by
  constructor
  · exact ⟨rfl, rfl, rfl, rfl⟩
  · intro f hf
    have h1 : f.type_ ≠ "ping" := fun he => hf (by simp [knownTypes, he])
    have h2 : f.type_ ≠ "subscribe" := fun he => hf (by simp [knownTypes, he])
    have h3 : f.type_ ≠ "unsubscribe" :=
      fun he => hf (by simp [knownTypes, he])
    have h4 : f.type_ ≠ "typing" := fun he => hf (by simp [knownTypes, he])
    simp only [handleInbound, handleFrame, if_neg h1, if_neg h2, if_neg h3,
      if_neg h4]
    exact ⟨trivial, trivial, trivial, trivial⟩

/-- A world used to exercise the gateway dispatcher. -/
def wC7 : World := ⟨stC1, psW, ⟨[]⟩⟩

/-- Witness for claim C7 at a concrete frame of unknown type `foo`. -/
theorem malformed_and_unknown_frames_witness :
    (handleInbound wC7 Inbound.malformed d5a 9).world = wC7 ∧
    (handleInbound wC7 (Inbound.frame ⟨"foo", ⟨none, false⟩⟩) d5a 9).world
      = wC7 ∧
    (handleInbound wC7 (Inbound.frame ⟨"foo", ⟨none, false⟩⟩) d5a 9).closed
      = false :=
  ⟨(malformed_and_unknown_frames wC7 d5a 9).1.1,
   ((malformed_and_unknown_frames wC7 d5a 9).2 ⟨"foo", ⟨none, false⟩⟩
      (by decide)).1,
   ((malformed_and_unknown_frames wC7 d5a 9).2 ⟨"foo", ⟨none, false⟩⟩
      (by decide)).2.2.2⟩

/-! ## Claim C8 -/

/-- A register or deregister call against the registry. -/
inductive RegOp where
  | addOp (socketId : String) (data : WebSocketData)
      (sock : Option SocketHandle)
  | removeOp (socketId : String)
deriving DecidableEq, Repr

/-- Apply one call (timestamps are irrelevant to the connection map). -/
def applyRegOp (w : World) : RegOp → World
  | .addOp sid data sock => (addConnection w sid data sock 0).1
  | .removeOp sid => (removeConnection w sid 0).1

/-- Apply a call sequence left to right. -/
def applyRegOps (w : World) : List RegOp → World
  | [] => w
  | op :: rest => applyRegOps (applyRegOp w op) rest

/-- Specification-side ledger, written from the words of the claim: the
socket ids currently registered and not yet deregistered after a call
sequence, starting from the accumulator. -/
def activeSocketIds (acc : List String) : List RegOp → List String
  | [] => acc
  | (RegOp.addOp sid _ _) :: rest => activeSocketIds (setAdd acc sid) rest
  | (RegOp.removeOp sid) :: rest => activeSocketIds (setDelete acc sid) rest

/-- The overwrite branch of `alSet` preserves the key list. -/
theorem alKeys_map_replace {β : Type} (m : List (String × β)) (k : String)
    (v : β) :
    alKeys (m.map (fun p => if p.1 = k then (k, v) else p)) = alKeys m := by
  induction m with
  | nil => rfl
  | cons p rest ih =>
      obtain ⟨k1, w⟩ := p
      by_cases h : k1 = k
      · subst h
        simp [alKeys, List.map_map] at ih ⊢
        exact ih
      · simp [alKeys, List.map_map, h] at ih ⊢
        exact ih

/-- Lemma: `alSet` acts on the key list as `setAdd`. -/
theorem alKeys_alSet {β : Type} (m : List (String × β)) (k : String) (v : β) :
    alKeys (alSet m k v) = setAdd (alKeys m) k := by
  unfold alSet setAdd
  by_cases hs : (alGet m k).isSome
  · have hk : k ∈ alKeys m := by
      by_contra hk
      rw [← alGet_eq_none_iff] at hk
      rw [hk] at hs
      simp at hs
    rw [if_pos hs, if_pos hk, alKeys_map_replace]
  · have hk : k ∉ alKeys m := by
      rw [← alGet_eq_none_iff]
      cases hm : alGet m k
      · rfl
      · rw [hm] at hs
        simp at hs
    rw [if_neg hs, if_neg hk]
    simp [alKeys]

/-- Lemma: `alDelete` acts on the key list as `setDelete`. -/
theorem alKeys_alDelete {β : Type} (m : List (String × β)) (k : String) :
    alKeys (alDelete m k) = setDelete (alKeys m) k := by
  induction m with
  | nil => rfl
  | cons p rest ih =>
      obtain ⟨k1, w⟩ := p
      by_cases h : k1 = k
      · subst h
        simp [alDelete, alKeys, setDelete] at ih ⊢
        exact ih
      · simp [alDelete, alKeys, setDelete, h] at ih ⊢
        exact ih

/-- Lemma: `addConnection` acts on the key list as `setAdd`. -/
theorem keys_addConnection (w : World) (sid : String) (data : WebSocketData)
    (sock : Option SocketHandle) (now : Nat) :
    alKeys (addConnection w sid data sock now).1.manager.connections =
      setAdd (alKeys w.manager.connections) sid :=
  alKeys_alSet _ _ _

/-- Lemma: `removeConnection` acts on the key list as `setDelete`; deregistering an
absent socket id is a no-op on the key list. -/
theorem keys_removeConnection (w : World) (sid : String) (now : Nat) :
    alKeys (removeConnection w sid now).1.manager.connections =
      setDelete (alKeys w.manager.connections) sid := by
  cases hc : alGet w.manager.connections sid with
  | none =>
      simp only [removeConnection, hc]
      rw [setDelete,
        filter_ne_of_not_mem _ _ ((alGet_eq_none_iff _ _).mp hc)]
  | some conn =>
      simp only [removeConnection, hc]
      exact alKeys_alDelete _ _

/-- The registry key list after a call sequence is the specification-side
ledger seeded with the initial key list. -/
theorem keys_applyRegOps (ops : List RegOp) : ∀ w : World,
    alKeys (applyRegOps w ops).manager.connections =
      activeSocketIds (alKeys w.manager.connections) ops := by
  induction ops with
  | nil =>
      intro w
      rfl
  | cons op rest ih =>
      intro w
      cases op with
      | addOp sid data sock =>
          simp only [applyRegOps, applyRegOp, activeSocketIds]
          rw [ih, keys_addConnection]
      | removeOp sid =>
          simp only [applyRegOps, applyRegOp, activeSocketIds]
          rw [ih, keys_removeConnection]

/-- Lemma: `setAdd` preserves duplicate-freedom. -/
theorem setAdd_nodup (s : List String) (x : String) (h : s.Nodup) :
    (setAdd s x).Nodup := by
  unfold setAdd
  by_cases hm : x ∈ s
  · rw [if_pos hm]
    exact h
  · rw [if_neg hm]
    simp [List.nodup_append, h, hm]

/-- Lemma: `setDelete` preserves duplicate-freedom. -/
theorem setDelete_nodup (s : List String) (x : String) (h : s.Nodup) :
    (setDelete s x).Nodup :=
  List.Nodup.filter _ h

/-- The specification-side ledger stays duplicate-free. -/
theorem activeSocketIds_nodup (ops : List RegOp) :
    ∀ acc : List String, acc.Nodup → (activeSocketIds acc ops).Nodup := by
  induction ops with
  | nil =>
      intro acc h
      exact h
  | cons op rest ih =>
      intro acc h
      cases op with
      | addOp sid data sock => exact ih _ (setAdd_nodup acc sid h)
      | removeOp sid => exact ih _ (setDelete_nodup acc sid h)

/-- The world at process start: empty registry, presence, routing table. -/
def worldInit : World := ⟨⟨[], "srv"⟩, ⟨[], []⟩, ⟨[]⟩⟩

/-- Claim C8: after any sequence of register and deregister calls,
`getConnectionCount` equals the number of currently-registered,
not-yet-deregistered socket ids (the duplicate-free specification-side
ledger), and deregistering an absent socket id is a no-op. -/
theorem connectionCount_invariant (ops : List RegOp) :
    getConnectionCount (applyRegOps worldInit ops).manager =
      (activeSocketIds [] ops).length ∧
    (activeSocketIds [] ops).Nodup ∧
    ∀ w (sid : String), alGet w.manager.connections sid = none →
      removeConnection w sid 0 = (w, []) := by
  refine ⟨?_, activeSocketIds_nodup ops [] List.nodup_nil, ?_⟩
  · have hk := keys_applyRegOps ops worldInit
    have hlen : getConnectionCount (applyRegOps worldInit ops).manager =
        (alKeys (applyRegOps worldInit ops).manager.connections).length := by
      unfold getConnectionCount alKeys
      rw [List.length_map]
    rw [hlen, hk]
    rfl
  · intro w sid hc
    simp only [removeConnection, hc]

/-- A call sequence with a duplicate register, a deregister, and a
re-register. -/
def opsW : List RegOp :=
  [RegOp.addOp "s1" d5a none, RegOp.addOp "s2" d5b none,
   RegOp.removeOp "s1", RegOp.addOp "s3" d5a none,
   RegOp.addOp "s3" d5a none]

/-- Witness for claim C8 at a concrete call sequence and a concrete absent
deregistration. -/
theorem connectionCount_invariant_witness :
    getConnectionCount (applyRegOps worldInit opsW).manager =
      (activeSocketIds [] opsW).length ∧
    removeConnection worldInit "zz" 0 = (worldInit, []) :=
  ⟨(connectionCount_invariant opsW).1,
   (connectionCount_invariant opsW).2.2 worldInit "zz" (by decide)⟩
